import Mathlib

/-!
Verification of the client-side logic of the code-challenge single-page
application.  The definitions below are a shallow embedding of the
components of the repository: the `MCQChallenge` interaction view
(answer selection and hint requests), the authenticated API client
(`makeRequest` status-to-error mapping), the `ChallengeGenerator`
quota/topic guard, the `HistoryPanel` fetch, bookmark, display and
export logic, and the `Layout` quota-banner credit styling.

External browser facilities (the network, `JSON.parse`, date
formatting) are modelled as explicit parameters or as the response
values a handler consumes; React state updates are modelled as pure
state-transition functions returning the component state that is
observable after the handler (and its awaited continuation) has run.
-/

/-- The `options` field of a challenge as delivered by the server:
either already an array of option strings or a JSON-encoded string of
that array (`MCQChallenge.jsx` accepts both). -/
inductive OptionsField where
  | arr (l : List String)
  | str (s : String)
deriving DecidableEq, Repr

/-- A challenge view model, hydrated from API responses
(fields as consumed across `MCQChallenge.jsx` and `HistoryPanel`). -/
structure Challenge where
  id : Nat
  title : String
  topic : String
  difficulty : String
  question : String
  options : OptionsField
  correct_answer_id : Nat
  explanation : String
  time_complexity : Option String
  space_complexity : Option String
  date_created : String
deriving DecidableEq, Repr

/-- The payload `handleOptionSelect` passes to the `onAnswerSubmit`
callback in `MCQChallenge.jsx`. -/
structure AnswerSubmission where
  challenge_id : Nat
  selected_answer_index : Nat
  is_correct : Bool
deriving DecidableEq, Repr

/-- Local state of one `MCQChallenge` component instance
(the `useState` hooks of `MCQChallenge.jsx`). -/
structure MCQState where
  selectedOption : Option Nat
  shouldShowExplanation : Bool
  isSubmitting : Bool
  showHints : Bool
  hints : List String
  isLoadingHint : Bool
  hintError : Option String
  hintLevel : Nat
deriving DecidableEq, Repr

/-- Initial state of a fresh `MCQChallenge` instance; `showExplanation`
is the prop-supplied initial value of `shouldShowExplanation`. -/
def initMCQState (showExplanation : Bool) : MCQState :=
  { selectedOption := none
    shouldShowExplanation := showExplanation
    isSubmitting := false
    showHints := false
    hints := []
    isLoadingHint := false
    hintError := none
    hintLevel := 1 }

/-- `handleOptionSelect` of `MCQChallenge.jsx`: a click on option
`index` is ignored when an option is already selected or a submission
is in flight; otherwise it records the selection, reveals the
explanation and, when an `onAnswerSubmit` callback is supplied
(`hasCallback`), issues exactly one answer submission.  The returned
state is the one observable after the handler completes: the
`finally` clause restores `isSubmitting` to `false`, and a callback
failure is only logged, so success and failure end in the same state. -/
def handleOptionSelect (c : Challenge) (hasCallback : Bool) (s : MCQState)
    (index : Nat) : MCQState × Option AnswerSubmission :=
  if s.selectedOption.isSome || s.isSubmitting then (s, none)
  else
    let s1 := { s with selectedOption := some index, shouldShowExplanation := true }
    if hasCallback then
      (s1, some { challenge_id := c.id
                  selected_answer_index := index
                  is_correct := index == c.correct_answer_id })
    else (s1, none)

/-- The state of `MCQChallenge` while `await onAnswerSubmit` is pending
inside `handleOptionSelect`: the selection is recorded and
`isSubmitting` is `true`. -/
def midSubmit (s : MCQState) (index : Nat) : MCQState :=
  { s with selectedOption := some index, shouldShowExplanation := true,
           isSubmitting := true }

/-- Run a sequence of option clicks against one component instance,
counting the answer submissions issued. -/
def runClicks (c : Challenge) (hasCallback : Bool) :
    MCQState → List Nat → MCQState × Nat
  | s, [] => (s, 0)
  | s, i :: rest =>
    let p := handleOptionSelect c hasCallback s i
    let q := runClicks c hasCallback p.1 rest
    (q.1, (if p.2.isSome then 1 else 0) + q.2)

/-- The body of a `challenges/get-hint` POST issued by `requestHint`. -/
structure HintCall where
  challenge_id : Nat
  hint_level : Nat
deriving DecidableEq, Repr

/-- The outcome of one `challenges/get-hint` round trip as consumed by
`requestHint`: a hint string on success, or a failure whose optional
message is `err.message`. -/
inductive ServerHintResult where
  | success (hint : String)
  | failure (msg : Option String)
deriving DecidableEq, Repr

/-- The network call `requestHint` of `MCQChallenge.jsx` issues from
state `s`, if any: the early return `if (hints.length >= 3) return`
suppresses the call entirely, otherwise the POST carries the current
`hintLevel`. -/
def requestHintCall (c : Challenge) (s : MCQState) : Option HintCall :=
  if s.hints.length ≥ 3 then none
  else some { challenge_id := c.id, hint_level := s.hintLevel }

/-- State after `requestHint` completes with round-trip outcome `r`
(no-op when the guard suppressed the call): on success the hint is
appended, `hintLevel` is incremented and hints are shown; on failure
only `hintError` is set.  `isLoadingHint` is restored by `finally`. -/
def requestHintStep (s : MCQState) (r : ServerHintResult) : MCQState :=
  if s.hints.length ≥ 3 then s
  else
    match r with
    | .success hint =>
        { s with hints := s.hints ++ [hint], hintLevel := s.hintLevel + 1,
                 showHints := true, hintError := none, isLoadingHint := false }
    | .failure msg =>
        { s with hintError := some (msg.getD "Failed to load hint. Please try again."),
                 isLoadingHint := false }

/-- Run a sequence of hint-request attempts with the given round-trip
outcomes. -/
def runHintAttempts (s : MCQState) : List ServerHintResult → MCQState
  | [] => s
  | r :: rest => runHintAttempts (requestHintStep s r) rest

/-- The 429 message thrown by `makeRequest` in `utils/api.js`. -/
def quotaExceededMessage : String := "Daily quota exceeded. Please try again tomorrow."

/-- The 401 message thrown by `makeRequest` in `utils/api.js`. -/
def authFailedMessage : String := "Authentication failed. Please sign in again."

/-- JS string-or-default: `v || d` where `v` is a string or null
(null, undefined and the empty string are falsy). -/
def jsOr (v : Option String) (d : String) : String :=
  match v with
  | some s => if s == "" then d else s
  | none => d

/-- The error message `makeRequest` of `utils/api.js` throws for a
non-ok response: 429 and 401 get fixed messages; every other status
gets `errorData?.detail` or the numeric-status fallback.  `detail` is
the optional `detail` field of the parsed error body (absent when the
body is missing or not JSON). -/
def statusErrorMessage (status : Nat) (detail : Option String) : String :=
  if status == 429 then quotaExceededMessage
  else if status == 401 then authFailedMessage
  else (detail.getD ("Error: " ++ toString status))

/-- `response.ok` of the fetch API: status in [200, 300). -/
def isOkStatus (status : Nat) : Bool := 200 ≤ status && status < 300

/-- `makeRequest` of `utils/api.js`, modelled on the response it
receives: an ok response yields the parsed body, any other response
throws the mapped error message. -/
def makeRequest {α : Type} (status : Nat) (detail : Option String)
    (body : α) : Except String α :=
  if isOkStatus status then .ok body else .error (statusErrorMessage status detail)

/-- The quota object returned by GET `challenges/quota`, as consumed. -/
structure QuotaInfo where
  quota_remaining : Nat
  total_quota : Option Nat
deriving DecidableEq, Repr

/-- Local state of the `ChallengeGenerator` component (the `useState`
hooks relevant to the generate guard); `quota` is `none` until the
mount-time fetch has resolved. -/
structure GeneratorState where
  isLoading : Bool
  isSubmitting : Bool
  quota : Option QuotaInfo
  difficulty : String
  topic : String
  customTopic : String
  isCustomTopic : Bool
deriving DecidableEq, Repr

/-- The `disabled` attribute of the Generate button in
`ChallengeGenerator.jsx`:
`isLoading || isSubmitting || quota?.quota_remaining === 0 ||
(isCustomTopic && !customTopic)`.  Optional chaining on a null quota
yields `undefined`, which is not `=== 0`; `!customTopic` is true
exactly when the string is empty. -/
def generateDisabled (st : GeneratorState) : Bool :=
  st.isLoading || st.isSubmitting ||
  (match st.quota with
   | some q => q.quota_remaining == 0
   | none => false) ||
  (st.isCustomTopic && st.customTopic == "")

/-- The body of a POST `challenges/generate-challenge`. -/
structure GenRequest where
  topic : String
  difficulty : String
deriving DecidableEq, Repr

/-- The request body `generateChallenge` of `ChallengeGenerator.jsx`
would post: the custom topic in custom mode, the selected predefined
topic otherwise. -/
def generateChallengeCall (st : GeneratorState) : GenRequest :=
  { topic := if st.isCustomTopic then st.customTopic else st.topic
    difficulty := st.difficulty }

/-- Activating the Generate button: a disabled button fires no click
handler, so no generation request is issued; otherwise
`generateChallenge` runs and posts its request. -/
def clickGenerate (st : GeneratorState) : Option GenRequest :=
  if generateDisabled st then none else some (generateChallengeCall st)

/-- Local state of the `HistoryPanel` component (the `useState` hooks
relevant to fetching, bookmarks, display and export). -/
structure HistoryState where
  history : List Challenge
  page : Nat
  total : Nat
  filterDifficulty : String
  searchTerm : String
  sortBy : String
  bookmarks : Finset Nat
  showBookmarksOnly : Bool
  exportFormat : String

/-- `const limit = 10` in `HistoryPanel`. -/
def historyLimit : Nat := 10

/-- The query parameters of a GET `challenges/my-history` request. -/
structure HistoryQuery where
  limit : Nat
  offset : Nat
  sort : String
  difficulty : Option String
  search : Option String
deriving DecidableEq, Repr

/-- The query `fetchHistory(pageNum)` of `HistoryPanel` builds:
`limit`, `offset = pageNum * limit`, `sort`, plus `difficulty` only
when the filter is non-empty and `search` only when the trimmed term
is non-empty (sent trimmed). -/
def historyRequest (st : HistoryState) (pageNum : Nat) : HistoryQuery :=
  { limit := historyLimit
    offset := pageNum * historyLimit
    sort := st.sortBy
    difficulty := if st.filterDifficulty == "" then none else some st.filterDifficulty
    search := if st.searchTerm.trim == "" then none else some st.searchTerm.trim }

/-- The body of a successful `challenges/my-history` response, as
consumed by `fetchHistory`. -/
structure HistoryResponse where
  challenges : List Challenge
  total : Nat
deriving Repr

/-- State update performed by `fetchHistory(pageNum)` on a successful
response: `setHistory`, `setTotal`, `setPage(pageNum)`. -/
def applyHistoryResponse (st : HistoryState) (pageNum : Nat)
    (r : HistoryResponse) : HistoryState :=
  { st with history := r.challenges, total := r.total, page := pageNum }

/-- `handleDifficultyChange` plus the `useEffect` on
`[filterDifficulty, sortBy, fetchHistory]`: the filter is stored and a
fetch for page 0 is issued with the new filters.  Returns the new
state and the issued query. -/
def handleDifficultyChange (st : HistoryState) (v : String) :
    HistoryState × HistoryQuery :=
  let st1 := { st with filterDifficulty := v }
  (st1, historyRequest st1 0)

/-- `handleSortChange` plus its `useEffect`: store the sort order and
fetch page 0. -/
def handleSortChange (st : HistoryState) (v : String) :
    HistoryState × HistoryQuery :=
  let st1 := { st with sortBy := v }
  (st1, historyRequest st1 0)

/-- `handleSearchChange` plus the debounced `useEffect` on
`[searchTerm, fetchHistory]`: after the fixed 500 ms timeout the
stored term triggers a fetch for page 0. -/
def debouncedSearchFetch (st : HistoryState) (v : String) :
    HistoryState × HistoryQuery :=
  let st1 := { st with searchTerm := v }
  (st1, historyRequest st1 0)

/-- `handlePageChange(newPage)` of `HistoryPanel`: fetch the requested
page with the current filters. -/
def handlePageChange (st : HistoryState) (newPage : Nat) : HistoryQuery :=
  historyRequest st newPage

/-- The outcome of the POST `challenges/challenge/{id}/bookmark` round
trip as consumed by `toggleBookmark`. -/
inductive BookmarkResult where
  | ok (bookmarked : Bool)
  | err
deriving DecidableEq, Repr

/-- The `setBookmarks` update `toggleBookmark` performs once the server
has responded: add the id when the server returned `bookmarked: true`,
delete it when `false`, and leave the set untouched when the round
trip failed (the catch clause only logs). -/
def applyBookmarkResult (st : HistoryState) (challengeId : Nat) :
    BookmarkResult → HistoryState
  | .ok true => { st with bookmarks := insert challengeId st.bookmarks }
  | .ok false => { st with bookmarks := st.bookmarks.erase challengeId }
  | .err => st

/-- `toggleBookmark(challengeId)` of `HistoryPanel`, split at its await
point: the state while the POST is in flight (unchanged — no update
precedes the response), the issued call, and the continuation applied
to the server result. -/
def toggleBookmark (st : HistoryState) (challengeId : Nat) :
    HistoryState × Nat × (BookmarkResult → HistoryState) :=
  (st, challengeId, applyBookmarkResult st challengeId)

/-- `displayedHistory` of `HistoryPanel`: the fetched list, filtered
locally to bookmarked ids when the bookmarks-only toggle is on. -/
def displayedHistory (st : HistoryState) : List Challenge :=
  if st.showBookmarksOnly then
    st.history.filter (fun ch => decide (ch.id ∈ st.bookmarks))
  else st.history

/-- CSV cell escaping used by `exportToCSV`:
double internal quotes and wrap the value in quotes. -/
def csvQuote (s : String) : String :=
  "\"" ++ s.replace "\"" "\"\"" ++ "\""

/-- The CSV header row of `exportToCSV`. -/
def csvHeaders : List String :=
  ["ID", "Title", "Difficulty", "Topic", "Date Created",
   "Time Complexity", "Space Complexity"]

/-- One CSV row of `exportToCSV`; `formatDate` stands for the browser
`toLocaleDateString` applied to `date_created`. -/
def csvRow (formatDate : String → String) (ch : Challenge) : List String :=
  [toString ch.id, csvQuote ch.title, ch.difficulty, csvQuote ch.topic,
   formatDate ch.date_created, jsOr ch.time_complexity "N/A",
   jsOr ch.space_complexity "N/A"]

/-- The CSV file content `exportToCSV` builds from the loaded history:
header row and one row per challenge, comma-joined, newline-joined. -/
def csvContent (formatDate : String → String) (history : List Challenge) : String :=
  String.intercalate "\n"
    (String.intercalate "," csvHeaders ::
     history.map (fun ch => String.intercalate "," (csvRow formatDate ch)))

/-- The externally observable effect of `handleExport`: a blocking
notice (`alert`), a triggered file download, or the print dialog. -/
inductive ExportAction where
  | notice (msg : String)
  | downloadJSON
  | downloadCSV (content : String)
  | printPDF
deriving DecidableEq, Repr

/-- `handleExport` of `HistoryPanel`: with an empty loaded list it
alerts and returns before any export function runs; otherwise it
dispatches on `exportFormat` (`json`, `csv`, `pdf`, defaulting to
JSON).  Only the CSV payload is modelled in full; the JSON and PDF
branches are recorded as their respective side effects. -/
def handleExport (formatDate : String → String) (st : HistoryState) : ExportAction :=
  if st.history.length == 0 then .notice "No challenges to export"
  else
    match st.exportFormat with
    | "csv" => .downloadCSV (csvContent formatDate st.history)
    | "pdf" => .printPDF
    | _ => .downloadJSON

/-- The three credit styles the `Layout` header can apply:
`styles.creditDanger`, `styles.creditWarning`, or the empty style
object (neutral). -/
inductive CreditStyleKind where
  | neutral
  | warningStyle
  | dangerStyle
deriving DecidableEq, Repr

/-- `getCreditStyle` of the `Layout` component: no quota data or more
than 15 remaining yields the empty style; at most 5 remaining yields
`creditDanger`; at most 15 remaining yields `creditWarning`. -/
def getCreditStyle (quota : Option QuotaInfo) : CreditStyleKind :=
  match quota with
  | none => .neutral
  | some q =>
      if q.quota_remaining ≤ 5 then .dangerStyle
      else if q.quota_remaining ≤ 15 then .warningStyle
      else .neutral

/-- `getCreditIcon` of the `Layout` component (the only place a zero
remainder is distinguished, and only by icon, not by styling). -/
def getCreditIcon (quota : Option QuotaInfo) : String :=
  match quota with
  | none => "⚡"
  | some q =>
      if q.quota_remaining ≤ 0 then "🚫"
      else if q.quota_remaining ≤ 5 then "⚠️"
      else if q.quota_remaining ≤ 15 then "⚡"
      else "✨"

/-- The styling tiers named by the specification for the quota banner. -/
inductive SpecCreditStyle where
  | exhausted
  | warning
  | neutral
deriving DecidableEq, Repr

/-- The quota-banner coloring as the specification words it (for
comparison with `getCreditStyle`): remaining = 0 is the exhausted
styling, 0 < remaining ≤ threshold the warning styling, anything
larger neutral. -/
def creditStyleSpec (threshold : Nat) (remaining : Nat) : SpecCreditStyle :=
  if remaining = 0 then .exhausted
  else if remaining ≤ threshold then .warning
  else .neutral

/-- The visual classification of one option row after rendering
`MCQChallenge.jsx` (`getOptionStyle`): before any selection every row
is the base style; afterwards the correct option is highlighted, the
user pick (when wrong) is error-highlighted, and the rest are dimmed. -/
inductive OptionStyleKind where
  | base
  | correctStyle
  | incorrectStyle
  | dimmed
deriving DecidableEq, Repr

/-- `getOptionStyle(index)` of `MCQChallenge.jsx`. -/
def getOptionStyle (c : Challenge) (s : MCQState) (index : Nat) : OptionStyleKind :=
  if s.selectedOption == none then .base
  else if index == c.correct_answer_id then .correctStyle
  else if s.selectedOption == some index then .incorrectStyle
  else .dimmed

/-- The inline marks rendered next to an option: the check mark shown
on the correct option once any option is selected, and the cross shown
on an incorrect pick. -/
inductive OptionMark where
  | correctMark
  | incorrectMark
  | noMark
deriving DecidableEq, Repr

/-- The mark rendered for option `index` in `MCQChallenge.jsx`. -/
def optionMark (c : Challenge) (s : MCQState) (index : Nat) : OptionMark :=
  if s.selectedOption.isSome && index == c.correct_answer_id then .correctMark
  else if s.selectedOption == some index && index != c.correct_answer_id then .incorrectMark
  else .noMark

/-- The option list `MCQChallenge.jsx` computes before rendering:
`typeof challenge.options === "string" ? JSON.parse(challenge.options)
: challenge.options`, with `parse` standing for the browser
`JSON.parse` restricted to string arrays. -/
def resolveOptions (parse : String → List String) (c : Challenge) : List String :=
  match c.options with
  | .arr l => l
  | .str s => parse s

/-- Replace the `options` field of a challenge. -/
def setOptions (c : Challenge) (o : OptionsField) : Challenge :=
  { c with options := o }

/-- The rendered content of one `MCQChallenge` instance that depends on
the challenge and the local state: the option rows (text, style,
mark), whether the explanation block is shown, and whether the
success banner is shown. -/
structure MCQView where
  renderedOptions : List (String × OptionStyleKind × OptionMark)
  explanationShown : Bool
  successBanner : Bool
  hintSectionShown : Bool
deriving DecidableEq, Repr

/-- The render of `MCQChallenge.jsx` as a function of the challenge and
the component state. -/
def mcqView (parse : String → List String) (c : Challenge) (s : MCQState) : MCQView :=
  { renderedOptions :=
      (resolveOptions parse c).enum.map
        (fun p => (p.2, getOptionStyle c s p.1, optionMark c s p.1))
    explanationShown := s.shouldShowExplanation && s.selectedOption.isSome
    successBanner := s.selectedOption == some c.correct_answer_id
    hintSectionShown := s.selectedOption == none }

/-- A concrete challenge used to instantiate theorems. -/
def exampleChallenge : Challenge :=
  { id := 7
    title := "Appending to a list"
    topic := "Python lists"
    difficulty := "easy"
    question := "Which method adds an element at the end?"
    options := .arr ["append", "pop", "sort", "index"]
    correct_answer_id := 0
    explanation := "append adds a single element at the end."
    time_complexity := some "O(1)"
    space_complexity := none
    date_created := "2024-01-01" }

/-- A concrete history item with id 1. -/
def histCh1 : Challenge :=
  { exampleChallenge with id := 1, title := "First" }

/-- A concrete history item with id 2. -/
def histCh2 : Challenge :=
  { exampleChallenge with id := 2, title := "Second" }

/-- A `HistoryPanel` state with the bookmarks-only toggle on, two
loaded rows and only id 1 bookmarked. -/
def bookmarkOnlyState : HistoryState :=
  { history := [histCh1, histCh2]
    page := 0
    total := 2
    filterDifficulty := ""
    searchTerm := ""
    sortBy := "desc"
    bookmarks := {1}
    showBookmarksOnly := true
    exportFormat := "json" }

/-- A `HistoryPanel` state with the bookmarks-only toggle off. -/
def plainHistoryState : HistoryState :=
  { bookmarkOnlyState with showBookmarksOnly := false, bookmarks := {7} }

/-- A `HistoryPanel` state with an empty loaded list and CSV selected. -/
def emptyHistoryState : HistoryState :=
  { plainHistoryState with history := [], total := 0, exportFormat := "csv" }

/-- A generator state whose fetched quota has zero remaining. -/
def zeroQuotaState : GeneratorState :=
  { isLoading := false
    isSubmitting := false
    quota := some { quota_remaining := 0, total_quota := some 50 }
    difficulty := "easy"
    topic := "Python lists"
    customTopic := ""
    isCustomTopic := false }

/-- A constant stand-in for `JSON.parse` on one fixed input. -/
def constParse : String → List String := fun _ => ["append", "pop"]

/-- An `MCQChallenge` state in which option 0 is already selected. -/
def answeredState : MCQState :=
  { initMCQState false with selectedOption := some 0, shouldShowExplanation := true }

theorem handleOptionSelect_noop (c : Challenge) (cb : Bool) (s : MCQState)
    (j : Nat) (h : (s.selectedOption.isSome || s.isSubmitting) = true) :
    handleOptionSelect c cb s j = (s, none) := by
  simp [handleOptionSelect, h]

theorem runClicks_noop (c : Challenge) (cb : Bool) (s : MCQState)
    (h : s.selectedOption.isSome = true) (l : List Nat) :
    runClicks c cb s l = (s, 0) := by
  induction l with
  | nil => rfl
  | cons hd tl ih => simp [runClicks, handleOptionSelect, h, ih]

theorem handleOptionSelect_fresh (c : Challenge) (cb : Bool) (s : MCQState)
    (i : Nat) (h1 : s.selectedOption = none) (h2 : s.isSubmitting = false) :
    (handleOptionSelect c cb s i).1.selectedOption = some i := by
  cases cb <;> simp [handleOptionSelect, h1, h2]

theorem requestHintStep_inv (s : MCQState) (r : ServerHintResult)
    (h : s.hintLevel = s.hints.length + 1) (hb : s.hints.length ≤ 3) :
    (requestHintStep s r).hintLevel = (requestHintStep s r).hints.length + 1 ∧
    (requestHintStep s r).hints.length ≤ 3 := by
  unfold requestHintStep
  split
  · exact ⟨h, hb⟩
  · rename_i hlt
    cases r with
    | success hint => simp [h]; omega
    | failure msg => exact ⟨h, hb⟩

theorem runHintAttempts_inv (rs : List ServerHintResult) :
    ∀ s : MCQState, s.hintLevel = s.hints.length + 1 → s.hints.length ≤ 3 →
    (runHintAttempts s rs).hintLevel = (runHintAttempts s rs).hints.length + 1 ∧
    (runHintAttempts s rs).hints.length ≤ 3 := by
  induction rs with
  | nil => intro s h hb; exact ⟨h, hb⟩
  | cons r rest ih =>
    intro s h hb
    have step := requestHintStep_inv s r h hb
    exact ih (requestHintStep s r) step.1 step.2

/-- C1: for every challenge instance rendered by `MCQChallenge`,
selecting an option moves the component to Answered exactly once and
at most one answer submission is issued: across any sequence of option
clicks starting from a fresh instance at most one submission fires,
the first click records the selection, and once an option is selected
(or while a submission is in flight, including the mid-await state)
every further click is a no-op that issues no request. -/
theorem mcq_single_submission (c : Challenge) (cb b : Bool) (l : List Nat)
    (s : MCQState) (i j : Nat) :
    (runClicks c cb (initMCQState b) l).2 ≤ 1 ∧
    (handleOptionSelect c cb (initMCQState b) i).1.selectedOption = some i ∧
    ((s.selectedOption.isSome || s.isSubmitting) = true →
      handleOptionSelect c cb s j = (s, none)) ∧
    handleOptionSelect c cb (midSubmit s i) j = (midSubmit s i, none) := by
  refine ⟨?_, handleOptionSelect_fresh c cb _ i rfl rfl, ?_, ?_⟩
  · cases l with
    | nil => simp [runClicks]
    | cons hd tl =>
      have hsel : (handleOptionSelect c cb (initMCQState b) hd).1.selectedOption
          = some hd := handleOptionSelect_fresh c cb _ hd rfl rfl
      have hrest := runClicks_noop c cb
        (handleOptionSelect c cb (initMCQState b) hd).1 (by simp [hsel]) tl
      simp only [runClicks, hrest]
      split <;> simp
  · intro h
    exact handleOptionSelect_noop c cb s j h
  · exact handleOptionSelect_noop c cb (midSubmit s i) j (by simp [midSubmit])

/-- C1 witness: with option 0 already selected, a click on option 1 is
a no-op and issues no submission. -/
theorem mcq_single_submission_witness :
    handleOptionSelect exampleChallenge true answeredState 1 = (answeredState, none) :=
  (mcq_single_submission exampleChallenge true false [] answeredState 0 1).2.2.1 rfl

/-- C2: in any sequence of hint round trips on one `MCQChallenge`
instance, a hint request is only ever issued carrying
`hint_level = (hints held) + 1`, so the request for the nth hint
(n = 1, 2, 3) carries level n; at most three hints are ever held; and
once three hints are held a further hint request is rejected
client-side, issuing no network call. -/
theorem hint_requests_levels (c : Challenge) (b : Bool)
    (rs : List ServerHintResult) (call : HintCall) :
    (requestHintCall c (runHintAttempts (initMCQState b) rs) = some call →
      call.hint_level = (runHintAttempts (initMCQState b) rs).hints.length + 1 ∧
      call.hint_level ≤ 3) ∧
    ((runHintAttempts (initMCQState b) rs).hints.length ≥ 3 →
      requestHintCall c (runHintAttempts (initMCQState b) rs) = none) ∧
    (runHintAttempts (initMCQState b) rs).hints.length ≤ 3 := by
  have inv := runHintAttempts_inv rs (initMCQState b) rfl (by simp [initMCQState])
  refine ⟨?_, ?_, inv.2⟩
  · intro h
    unfold requestHintCall at h
    split at h
    · exact absurd h (by simp)
    · rename_i hlt
      have : call.hint_level = (runHintAttempts (initMCQState b) rs).hintLevel := by
        cases h; rfl
      rw [this, inv.1]
      omega
  · intro h
    unfold requestHintCall
    split
    · rfl
    · omega

/-- C2 witness: after one successful hint round trip, the next request
carries level 2 = 1 + 1 ≤ 3. -/
theorem hint_requests_levels_witness :
    (HintCall.mk 7 2).hint_level =
      (runHintAttempts (initMCQState false)
        [ServerHintResult.success "think about append"]).hints.length + 1 ∧
    (HintCall.mk 7 2).hint_level ≤ 3 :=
  (hint_requests_levels exampleChallenge false
    [ServerHintResult.success "think about append"] (HintCall.mk 7 2)).1 rfl

/-- C3 counterexample: `makeRequest` gives HTTP 503 no distinct
treatment — a 503 response produces a byte-for-byte identical error to
a generic 500 with the same body, and without a detail field the 503
error is just the numeric-status fallback.  There is no
ServiceUnavailable error distinguished from the generic case. -/
theorem api_503_same_as_generic :
    statusErrorMessage 503 (some "upstream down")
      = statusErrorMessage 500 (some "upstream down") ∧
    statusErrorMessage 503 none = "Error: 503" ∧
    makeRequest 503 (some "upstream down") (0 : Nat)
      = makeRequest 500 (some "upstream down") (0 : Nat) :=
  ⟨rfl, rfl, rfl⟩

/-- C3 amended: for every non-2xx response, `makeRequest` maps 429 to
the quota-exceeded error whose message identifies daily-limit
exhaustion, 401 to the authentication error, and every other non-2xx
status — 503 included, with no distinct treatment — to the generic
error carrying the server-supplied detail message or, failing that,
the numeric status. -/
theorem statusErrorMessage_taxonomy (status : Nat) (detail : Option String)
    (body : Nat) :
    statusErrorMessage 429 detail = quotaExceededMessage ∧
    statusErrorMessage 401 detail = authFailedMessage ∧
    (status ≠ 429 → status ≠ 401 →
      statusErrorMessage status detail = detail.getD ("Error: " ++ toString status)) ∧
    (isOkStatus status = false →
      makeRequest status detail body = .error (statusErrorMessage status detail)) ∧
    (isOkStatus status = true → makeRequest status detail body = .ok body) := by
  refine ⟨rfl, rfl, ?_, ?_, ?_⟩
  · intro h1 h2
    simp [statusErrorMessage, h1, h2]
  · intro h
    simp [makeRequest, h]
  · intro h
    simp [makeRequest, h]

/-- C3 amended witness: a 418 response with no detail body yields the
numeric-status fallback error. -/
theorem statusErrorMessage_taxonomy_witness :
    statusErrorMessage 418 none = Option.getD none ("Error: " ++ toString 418) :=
  (statusErrorMessage_taxonomy 418 none 0).2.2.1 (by decide) (by decide)

/-- C4: in `ChallengeGenerator`, whenever the fetched quota has
`quota_remaining = 0`, or custom-topic mode is active with an empty
custom topic, the Generate button is disabled and activating it
issues no generation request. -/
theorem generate_guard (st : GeneratorState) (q : QuotaInfo)
    (h : (st.quota = some q ∧ q.quota_remaining = 0) ∨
         (st.isCustomTopic = true ∧ st.customTopic = "")) :
    generateDisabled st = true ∧ clickGenerate st = none := by
  have hd : generateDisabled st = true := by
    rcases h with ⟨hq, hz⟩ | ⟨hc, he⟩
    · simp [generateDisabled, hq, hz]
    · simp [generateDisabled, hc, he]
  exact ⟨hd, by simp [clickGenerate, hd]⟩

/-- C4 witness: with `{quota_remaining: 0}` fetched, the button is
disabled and a click issues no request. -/
theorem generate_guard_witness :
    generateDisabled zeroQuotaState = true ∧ clickGenerate zeroQuotaState = none :=
  generate_guard zeroQuotaState { quota_remaining := 0, total_quota := some 50 }
    (Or.inl ⟨rfl, rfl⟩)

/-- C5: every `HistoryPanel` fetch for page k uses
`offset = k * limit` with the configured limit 10; and a change of the
difficulty filter, the sort order, or (after the fixed 500 ms
debounce) the search term issues its re-fetch for page 0, leaving the
stored page at 0 once the response lands. -/
theorem history_pagination (st : HistoryState) (k : Nat) (v : String)
    (r : HistoryResponse) :
    (historyRequest st k).offset = k * historyLimit ∧
    (historyRequest st k).limit = historyLimit ∧
    (handlePageChange st k).offset = k * historyLimit ∧
    (handleDifficultyChange st v).2.offset = 0 ∧
    (handleSortChange st v).2.offset = 0 ∧
    (debouncedSearchFetch st v).2.offset = 0 ∧
    (applyHistoryResponse (handleDifficultyChange st v).1 0 r).page = 0 ∧
    (applyHistoryResponse (handleSortChange st v).1 0 r).page = 0 ∧
    (applyHistoryResponse (debouncedSearchFetch st v).1 0 r).page = 0 :=
  ⟨rfl, rfl, rfl, rfl, rfl, rfl, rfl, rfl, rfl⟩

/-- C6: a bookmark toggle leaves the client bookmark set untouched
while the POST is in flight; once the server returns
`{bookmarked: b}`, membership of the toggled id equals b and
membership of every other id is unchanged; a failed round trip leaves
the set as it was. -/
theorem bookmark_toggle (st : HistoryState) (challengeId j : Nat) (b : Bool) :
    (toggleBookmark st challengeId).1 = st ∧
    (challengeId ∈ (applyBookmarkResult st challengeId (.ok b)).bookmarks ↔ b = true) ∧
    (j ≠ challengeId →
      (j ∈ (applyBookmarkResult st challengeId (.ok b)).bookmarks ↔ j ∈ st.bookmarks)) ∧
    applyBookmarkResult st challengeId .err = st := by
  refine ⟨rfl, ?_, ?_, rfl⟩
  · cases b <;> simp [applyBookmarkResult]
  · intro hj
    cases b <;> simp [applyBookmarkResult, hj]

/-- C6 witness: toggling id 42 with server answer `{bookmarked: true}`
makes 42 a member and leaves membership of id 7 as before. -/
theorem bookmark_toggle_witness :
    (42 ∈ (applyBookmarkResult plainHistoryState 42 (BookmarkResult.ok true)).bookmarks
      ↔ true = true) ∧
    (7 ∈ (applyBookmarkResult plainHistoryState 42 (BookmarkResult.ok true)).bookmarks
      ↔ 7 ∈ plainHistoryState.bookmarks) :=
  ⟨(bookmark_toggle plainHistoryState 42 7 true).2.1,
   (bookmark_toggle plainHistoryState 42 7 true).2.2.1 (by decide)⟩

/-- C7 counterexample: with the bookmarks-only toggle on,
`displayedHistory` applies a local bookmark-membership predicate to
the loaded rows — on a state holding the server slice
`[histCh1, histCh2]` with only id 1 bookmarked, the displayed list is
`[histCh1]`, not the server-confirmed slice. -/
theorem displayedHistory_local_filter :
    displayedHistory bookmarkOnlyState = [histCh1] ∧
    bookmarkOnlyState.history = [histCh1, histCh2] ∧
    displayedHistory bookmarkOnlyState ≠ bookmarkOnlyState.history := by
  refine ⟨?_, rfl, ?_⟩ <;> decide

/-- C7 amended: the difficulty, free-text search and sort filters are
only sent as query parameters and never applied locally — changing any
of them does not change what is displayed for a given loaded list —
and whenever the bookmarks-only toggle is off, the displayed list is
exactly the server-confirmed slice stored by the last successful
fetch; with the toggle on, and only then, the slice is additionally
filtered locally to bookmarked ids. -/
theorem displayedHistory_spec (st : HistoryState) (v : String) (k : Nat)
    (r : HistoryResponse) :
    (st.showBookmarksOnly = false → displayedHistory st = st.history) ∧
    (st.showBookmarksOnly = true →
      displayedHistory st
        = st.history.filter (fun ch => decide (ch.id ∈ st.bookmarks))) ∧
    displayedHistory { st with filterDifficulty := v } = displayedHistory st ∧
    displayedHistory { st with searchTerm := v } = displayedHistory st ∧
    displayedHistory { st with sortBy := v } = displayedHistory st ∧
    (applyHistoryResponse st k r).history = r.challenges := by
  refine ⟨?_, ?_, rfl, rfl, rfl, rfl⟩
  · intro h; simp [displayedHistory, h]
  · intro h; simp [displayedHistory, h]

/-- C7 amended witness: with the toggle off, the displayed list equals
the loaded history. -/
theorem displayedHistory_spec_witness :
    displayedHistory plainHistoryState = plainHistoryState.history :=
  (displayedHistory_spec plainHistoryState "" 0 ⟨[], 0⟩).1 rfl

/-- C8 counterexample: the quota banner styles remaining = 0 and
remaining = 1 identically (both `creditDanger`), while the claim
demands the exhausted styling at 0 and the distinct warning styling at
every remaining between 1 and the threshold (instantiated at
threshold 5; the same holds for any threshold ≥ 1). -/
theorem creditStyle_zero_one_collapse :
    getCreditStyle (some { quota_remaining := 0, total_quota := none })
      = getCreditStyle (some { quota_remaining := 1, total_quota := none }) ∧
    getCreditStyle (some { quota_remaining := 0, total_quota := none })
      = CreditStyleKind.dangerStyle ∧
    creditStyleSpec 5 0 = SpecCreditStyle.exhausted ∧
    creditStyleSpec 5 1 = SpecCreditStyle.warning ∧
    SpecCreditStyle.exhausted ≠ SpecCreditStyle.warning := by
  decide

/-- C8 amended: the banner coloring is a pure function of the
remaining count with two thresholds: remaining ≤ 5 (0 included — it
gets no distinct styling) yields the danger styling, 5 < remaining ≤ 15
the warning styling, anything larger (or no quota data) neutral;
boundary values 5, 6, 15, 16 are classified accordingly.  Only the
banner icon, not the coloring, singles out remaining = 0. -/
theorem getCreditStyle_spec (q : QuotaInfo) :
    (q.quota_remaining ≤ 5 → getCreditStyle (some q) = .dangerStyle) ∧
    (5 < q.quota_remaining → q.quota_remaining ≤ 15 →
      getCreditStyle (some q) = .warningStyle) ∧
    (15 < q.quota_remaining → getCreditStyle (some q) = .neutral) ∧
    getCreditStyle none = .neutral ∧
    getCreditStyle (some { quota_remaining := 5, total_quota := none }) = .dangerStyle ∧
    getCreditStyle (some { quota_remaining := 6, total_quota := none }) = .warningStyle ∧
    getCreditStyle (some { quota_remaining := 15, total_quota := none }) = .warningStyle ∧
    getCreditStyle (some { quota_remaining := 16, total_quota := none }) = .neutral ∧
    getCreditIcon (some { quota_remaining := 0, total_quota := none }) = "🚫" := by
  refine ⟨?_, ?_, ?_, rfl, by decide, by decide, by decide, by decide, by decide⟩
  · intro h; simp [getCreditStyle, h]
  · intro h1 h2
    have hn : ¬ q.quota_remaining ≤ 5 := by omega
    simp [getCreditStyle, hn, h2]
  · intro h
    have h5 : ¬ q.quota_remaining ≤ 5 := by omega
    have h15 : ¬ q.quota_remaining ≤ 15 := by omega
    simp [getCreditStyle, h5, h15]

/-- C8 amended witness: a remaining count of 3 gets the danger
styling. -/
theorem getCreditStyle_spec_witness :
    getCreditStyle (some { quota_remaining := 3, total_quota := none })
      = CreditStyleKind.dangerStyle :=
  (getCreditStyle_spec { quota_remaining := 3, total_quota := none }).1 (by decide)

/-- C9: invoking export with CSV format while the loaded history list
is empty only raises the user-visible notice — no CSV content is
built and no file download is issued; with a non-empty list and CSV
selected, the CSV download does fire. -/
theorem export_empty_noop (formatDate : String → String) (st : HistoryState) :
    (st.history = [] → handleExport formatDate st = .notice "No challenges to export") ∧
    (st.history ≠ [] → st.exportFormat = "csv" →
      handleExport formatDate st = .downloadCSV (csvContent formatDate st.history)) := by
  constructor
  · intro h; simp [handleExport, h]
  · intro h1 h2
    simp only [handleExport, h2]
    rw [if_neg]
    simp [h1]

/-- C9 witness: on an empty loaded list with CSV selected, export is
the notice alone. -/
theorem export_empty_noop_witness :
    handleExport id emptyHistoryState = ExportAction.notice "No challenges to export" :=
  (export_empty_noop id emptyHistoryState).1 rfl

/-- C10: `MCQChallenge` accepts the options field either as an array
or as a JSON-encoded string of that array; for every challenge whose
options string parses to an array, the rendered view, the selection
handling and the hint request are identical to those for the same
challenge carrying the parsed array directly. -/
theorem options_representations_equivalent (parse : String → List String)
    (c : Challenge) (s : MCQState) (enc : String) (l : List String)
    (cb : Bool) (i : Nat) (h : parse enc = l) :
    mcqView parse (setOptions c (.str enc)) s = mcqView parse (setOptions c (.arr l)) s ∧
    handleOptionSelect (setOptions c (.str enc)) cb s i
      = handleOptionSelect (setOptions c (.arr l)) cb s i ∧
    requestHintCall (setOptions c (.str enc)) s
      = requestHintCall (setOptions c (.arr l)) s ∧
    resolveOptions parse (setOptions c (.str enc)) = l := by
  refine ⟨?_, rfl, rfl, ?_⟩
  · simp [mcqView, resolveOptions, setOptions, h, getOptionStyle, optionMark]
  · simp [resolveOptions, setOptions, h]

/-- C10 witness: with a parse function returning
`["append", "pop"]`, the string-carrying and array-carrying variants
of a concrete challenge render identically. -/
theorem options_representations_equivalent_witness :
    mcqView constParse (setOptions exampleChallenge (.str "[\"append\",\"pop\"]"))
        (initMCQState false)
      = mcqView constParse (setOptions exampleChallenge (.arr ["append", "pop"]))
        (initMCQState false) :=
  (options_representations_equivalent constParse exampleChallenge (initMCQState false)
    "[\"append\",\"pop\"]" ["append", "pop"] true 0 rfl).1
